import Mathlib

/-!
Verification development for the botskigg autonomous-agent repository.

Each section shallowly embeds one component of the source:

* `SMM`  — `src/src/plugins/core/StateMachine.js` (the StateMachine plugin).
* `CM`   — `src/unnamed/part_007`, first `CombatManager` class (the one with
  the bloodhound correlation fallback and hysteresis mode switching).
* `AC`   — `src/unnamed/part_001`, `AutomationControl`.
* `DS`   — `src/src/plugins/automatics/DepositSugarcane.js`.

Machine integers are modelled as `Nat`/`Int`, distances as `ℚ`, JavaScript
`Map`s keyed by strings as insertion-ordered `List String`, and the external
world (inventory counts after transfer attempts, block scans, timers,
`Math.random`) as explicit oracle parameters.  All definitions are
executable so concrete runs evaluate by `decide`/`rfl`.
-/

namespace SMM

/-- An entry of `this.stateHistory`: `{state, timestamp}`
(StateMachine.js, `addToHistory`). -/
structure HistEntry where
  state : String
  timestamp : Nat
deriving DecidableEq, Repr

/-- A `StateTransition` as stored in `this.transitions`
(StateMachine.js, `createTransition`).  `parent`/`child` are the behavior
names used as keys of the `behaviors` map (behaviors are uniquely keyed by
name, and `createTransition` looks the objects up by name).
`shouldTransition` records the current boolean value of the guard closure;
the engine's `setState`/`canTransitionTo` never invoke the closure, so only
its current evaluation is relevant to their behavior. -/
structure Transition where
  parent : String
  child : String
  shouldTransition : Bool
deriving DecidableEq, Repr

/-- The mutable state of the `StateMachine` plugin instance that
`setState`/`canTransitionTo`/`addToHistory`/`getHistory` read and write:
`behaviors` holds the keys of the `this.behaviors` map. -/
structure SM where
  behaviors : List String
  transitions : List Transition
  currentStateName : String
  stateHistory : List HistEntry
  maxHistorySize : Nat
deriving DecidableEq, Repr

/-- `canTransitionTo(stateName)` (StateMachine.js lines 451-464): both the
current and the target behavior must be registered, and some stored
transition must connect them.  The guard is not consulted. -/
def canTransitionTo (sm : SM) (stateName : String) : Bool :=
  sm.behaviors.contains sm.currentStateName &&
  sm.behaviors.contains stateName &&
  sm.transitions.any fun t =>
    t.parent = sm.currentStateName && t.child = stateName

/-- `setState(stateName, force)` (StateMachine.js lines 370-425).
An unregistered name is auto-registered (a fresh `BehaviorIdle` is added
under that key); a request for the current state returns `true` with no
side effect; `force` applies unconditionally; otherwise the change is
applied iff `canTransitionTo` holds.  The call into the underlying
`mineflayer-statemachine` object is modelled as the pure update of
`currentStateName` (the wrapper's own state); history is appended only by
the `stateEntered` event handler, not here.  Returns the new state and the
boolean result. -/
def setState (sm : SM) (stateName : String) (force : Bool) : SM × Bool :=
  let sm' :=
    if sm.behaviors.contains stateName then sm
    else { sm with behaviors := sm.behaviors ++ [stateName] }
  if sm'.currentStateName = stateName then (sm', true)
  else if force then ({ sm' with currentStateName := stateName }, true)
  else if canTransitionTo sm' stateName then
    ({ sm' with currentStateName := stateName }, true)
  else (sm', false)

/-- `addToHistory(stateName)` (StateMachine.js lines 469-478): push
`{state, timestamp}`, then drop the oldest entry if the length now exceeds
`maxHistorySize`. -/
def addToHistory (sm : SM) (stateName : String) (ts : Nat) : SM :=
  let h := sm.stateHistory ++ [⟨stateName, ts⟩]
  { sm with stateHistory := if sm.maxHistorySize < h.length then h.drop 1 else h }

/-- `getHistory(limit)` (StateMachine.js lines 483-485), i.e.
`stateHistory.slice(-limit)`.  JavaScript `slice(-0)` equals `slice(0)`,
so a limit of `0` yields the whole array; a positive limit yields the last
`limit` entries. -/
def getHistory (sm : SM) (limit : Nat) : List HistEntry :=
  if limit = 0 then sm.stateHistory
  else sm.stateHistory.drop (sm.stateHistory.length - limit)

/-- A sequence of recorded transitions: `addToHistory` applied for each
`(state, timestamp)` pair in order (as the `stateEntered` handler does). -/
def recordAll (sm : SM) (evs : List (String × Nat)) : SM :=
  evs.foldl (fun s e => addToHistory s e.1 e.2) sm

/-- `setState` succeeds with `force = false` iff the target is the current
state or a transition edge from the current state to the target is stored
(guards are never evaluated). -/
def succeedsWithoutForce (sm : SM) (target : String) : Prop :=
  sm.currentStateName = target ∨ canTransitionTo sm target = true

instance (sm : SM) (target : String) :
    Decidable (succeedsWithoutForce sm target) := by
  unfold succeedsWithoutForce; infer_instance

/-- A transition edge `(current, target)` whose guard currently evaluates
to `true` exists — the success condition that claim C1 (and spec §8)
ascribes to `setState`. -/
def guardTrueEdge (sm : SM) (target : String) : Prop :=
  ∃ t ∈ sm.transitions,
    t.parent = sm.currentStateName ∧ t.child = target ∧
    t.shouldTransition = true

instance (sm : SM) (target : String) : Decidable (guardTrueEdge sm target) := by
  unfold guardTrueEdge; infer_instance

/-- The state machine built by `DepositSugarcane.load` (lines 47-66 of
DepositSugarcane.js): the `idle → depositing` transition is registered with
`shouldTransition: () => false`. -/
def depositSM : SM :=
  { behaviors := ["idle", "eating", "fighting", "depositing"]
    transitions := [⟨"idle", "depositing", false⟩, ⟨"depositing", "idle", true⟩]
    currentStateName := "idle"
    stateHistory := []
    maxHistorySize := 50 }

end SMM

namespace CM

/-- An entity as seen by the CombatManager (part_007, first class):
`eid` stands for the object identity / `entity.id`, `isPlayer` for
`entity.type === 'player'`, and `dist` for
`bot.entity.position.distanceTo(entity.position)` at the moment the
handlers run. -/
structure Entity where
  eid : Nat
  isPlayer : Bool
  dist : ℚ
deriving DecidableEq, Repr

/-- The CombatManager fields that the hurt/correlation race and the
retaliation logic read and write.  `retaliationEnabled` abbreviates
`autoRetaliate || autoAttack || autoAttackHostile` (the same disjunction
guards both handlers).  `attackLog` is a ghost log of the entity ids passed
to `attackEntity`, recording each retaliation that actually fires. -/
structure CombatRace where
  retaliationEnabled : Bool
  pendingHurtTime : Option Nat
  bloodhoundHandled : Bool
  isInCombat : Bool
  currentTarget : Option Entity
  attackLog : List Nat
deriving DecidableEq, Repr

/-- `attackEntity(entity)` (part_007 lines 372-399), restricted to the
fields above: set `isInCombat`, set `currentTarget`, and engage (logged in
`attackLog`; the weapon/mode side effects do not feed back into the race). -/
def attackEntity (s : CombatRace) (e : Entity) : CombatRace :=
  { s with isInCombat := true, currentTarget := some e,
           attackLog := s.attackLog ++ [e.eid] }

/-- `retaliate(attacker)` (part_007 lines 199-224): when already in combat
with a current target, stay on a player target instead of a mob, and stay
on a strictly closer target of the same class; otherwise attack. -/
def retaliate (s : CombatRace) (e : Entity) : CombatRace :=
  match s.currentTarget with
  | some ct =>
    if s.isInCombat then
      if ct.isPlayer && !e.isPlayer then s
      else if decide (ct.dist < e.dist) && (ct.isPlayer == e.isPlayer) then s
      else attackEntity s e
    else attackEntity s e
  | none => attackEntity s e

/-- `onEntityHurt` for a hurt event on the bot itself (part_007 lines
107-125): record the pending hurt time, clear `bloodhoundHandled`, and
schedule the 150 ms fallback (the callback itself is the `timerFire`
step below). -/
def onEntityHurt (s : CombatRace) (now : Nat) : CombatRace :=
  if s.retaliationEnabled then
    { s with pendingHurtTime := some now, bloodhoundHandled := false }
  else s

/-- `fallbackRetaliate()` (part_007 lines 130-141): retaliate against the
nearest plausible attacker, if any, then clear the pending hurt time. -/
def fallbackRetaliate (s : CombatRace) (nearest : Option Entity) : CombatRace :=
  let s' := match nearest with
            | some a => retaliate s a
            | none => s
  { s' with pendingHurtTime := none }

/-- The body of the 150 ms `setTimeout` callback from `onEntityHurt`
(part_007 lines 119-124): fall back only if bloodhound has not handled the
hurt and a hurt is still pending.  `nearest` is `findNearestAttacker()`'s
result at that moment. -/
def timerFire (s : CombatRace) (nearest : Option Entity) : CombatRace :=
  if !s.bloodhoundHandled && s.pendingHurtTime.isSome then
    fallbackRetaliate s nearest
  else s

/-- `onCorrelateAttack(attacker, victim, weapon)` (part_007 lines 176-197):
mark the hurt as handled (suppressing the fallback), then retaliate if the
victim is the bot and retaliation is enabled. -/
def onCorrelateAttack (s : CombatRace) (attacker : Entity)
    (victimIsBot : Bool) : CombatRace :=
  let s' := { s with bloodhoundHandled := true, pendingHurtTime := none }
  if !victimIsBot then s'
  else if !s'.retaliationEnabled then s'
  else retaliate s' attacker

/-- One handler execution on the single-threaded event loop; a list of
these, in chronological order, is one possible interleaving of the damage
event, the scheduled fallback callback, and the bloodhound correlation. -/
inductive CombatEvent where
  | hurt (now : Nat)
  | timer (nearest : Option Entity)
  | correlate (attacker : Entity) (victimIsBot : Bool)
deriving DecidableEq, Repr

def runCombat (s : CombatRace) (evs : List CombatEvent) : CombatRace :=
  evs.foldl
    (fun s e =>
      match e with
      | .hurt now => onEntityHurt s now
      | .timer nearest => timerFire s nearest
      | .correlate a v => onCorrelateAttack s a v)
    s

/-- `updateCombatMode`'s two modes (part_007 line 32). -/
inductive CombatMode where
  | melee
  | ranged
deriving DecidableEq, Repr

/-- `this.attackRange` of the first CombatManager class (part_007 line 18). -/
def attackRange : ℚ := 6

/-- The hysteresis buffer of `updateCombatMode` (part_007 line 256). -/
def hysteresisBuffer : ℚ := 2

/-- `updateCombatMode(distance)` (part_007 lines 252-292), as a function of
the current mode, the measured distance, and the ranged-capability inputs
(`this.useLongRange` and the `hasBow` inventory check): in melee, switch to
ranged only beyond `attackRange + buffer` with ranged capability; in
ranged, drop to melee at `distance ≤ attackRange` or when the capability is
gone.  The weapon-equipping side effects do not feed back into the mode. -/
def updateCombatMode (mode : CombatMode) (distance : ℚ)
    (useLongRange hasBow : Bool) : CombatMode :=
  match mode with
  | .melee =>
    if decide (attackRange + hysteresisBuffer < distance) && useLongRange && hasBow
    then .ranged else .melee
  | .ranged =>
    if decide (distance ≤ attackRange) || !useLongRange || !hasBow
    then .melee else .ranged

/-- `updateCombatMode` applied on each tick of a sequence of measured
distances (the relevant part of `onPhysicsTick`, part_007 lines 226-241). -/
def runTicks (mode : CombatMode) (useLongRange hasBow : Bool)
    (ds : List ℚ) : CombatMode :=
  ds.foldl (fun m d => updateCombatMode m d useLongRange hasBow) mode

end CM

namespace AC

/-- The state touched by `AutomationControl` (part_001 lines 408-553) and
its managed plugins.  `sugarLoaded`/`autoLoaded` say whether
`pluginLoader.getPlugin` finds `SugarcaneFarm`/`AutoFarm`;
`sugarActive`/`autoActive` are those plugins' `isFarming` flags
(`startFarming` sets the flag synchronously before its first await,
`stopFarming` clears it); `monitoringOn` is whether the StateMachine's
`monitoringInterval` is set; `pausedPlugins` is the insertion-ordered key
list of the `pausedPlugins` Map. -/
structure AutoState where
  sugarLoaded : Bool
  autoLoaded : Bool
  sugarActive : Bool
  autoActive : Bool
  monitoringOn : Bool
  wasMonitoringPaused : Bool
  pausedPlugins : List String
deriving DecidableEq, Repr

/-- `getAutomationPlugins()` (part_001 lines 420-422). -/
def automationPlugins : List String := ["SugarcaneFarm", "AutoFarm"]

def loadedP (s : AutoState) (name : String) : Bool :=
  if name = "SugarcaneFarm" then s.sugarLoaded
  else if name = "AutoFarm" then s.autoLoaded
  else false

def activeP (s : AutoState) (name : String) : Bool :=
  if name = "SugarcaneFarm" then s.sugarActive
  else if name = "AutoFarm" then s.autoActive
  else false

def setActiveP (s : AutoState) (name : String) (v : Bool) : AutoState :=
  if name = "SugarcaneFarm" then { s with sugarActive := v }
  else if name = "AutoFarm" then { s with autoActive := v }
  else s

/-- `Map.prototype.set` on a string-keyed map: an existing key keeps its
insertion position, a new key is appended. -/
def recordPaused (l : List String) (name : String) : List String :=
  if l.contains name then l else l ++ [name]

/-- `pauseStateMachineMonitoring()` (part_001 lines 427-436). -/
def pauseStateMachineMonitoring (s : AutoState) : AutoState :=
  if s.monitoringOn then
    { s with monitoringOn := false, wasMonitoringPaused := true }
  else s

/-- `resumeStateMachineMonitoring()` (part_001 lines 441-450). -/
def resumeStateMachineMonitoring (s : AutoState) : AutoState :=
  if s.wasMonitoringPaused then
    if !s.monitoringOn then
      { s with monitoringOn := true, wasMonitoringPaused := false }
    else { s with wasMonitoringPaused := false }
  else s

/-- The body of `pauseAll()`'s loop for one plugin name (part_001 lines
462-470): if the plugin is loaded and farming, stop it, record it in
`pausedPlugins`, and append it to the returned list. -/
def pauseOne (acc : AutoState × List String) (name : String) :
    AutoState × List String :=
  let (s, paused) := acc
  if loadedP s name && activeP s name then
    ({ setActiveP s name false with
        pausedPlugins := recordPaused s.pausedPlugins name },
     paused ++ [name])
  else (s, paused)

/-- `pauseAll()` (part_001 lines 456-482).  The navigation stop and the
pathfinder-goal clearing act only on external collaborators and are
elided. -/
def pauseAll (s : AutoState) : AutoState × List String :=
  automationPlugins.foldl pauseOne (pauseStateMachineMonitoring s, [])

/-- One iteration of `resumeAll()`'s loop (part_001 lines 491-501):
`startFarming` is awaited; for the two managed farm plugins it exists and
sets `isFarming = true` synchronously, so a resumed plugin becomes active
(a rejection later inside `startFarming` happens after the flag is set and
is caught and logged). -/
def resumeOne (s : AutoState) (name : String) : AutoState :=
  if loadedP s name then setActiveP s name true else s

/-- `resumeAll()` (part_001 lines 487-503): resume monitoring, start every
recorded plugin in recorded order, then clear the record. -/
def resumeAll (s : AutoState) : AutoState :=
  let s1 := resumeStateMachineMonitoring s
  let s2 := s1.pausedPlugins.foldl resumeOne s1
  { s2 with pausedPlugins := [] }

/-- `stopAll()` (part_001 lines 508-532): stop every active managed plugin
without recording it, then clear the record and the monitoring-paused
flag. -/
def stopAll (s : AutoState) : AutoState :=
  let s1 := automationPlugins.foldl
    (fun s name =>
      if loadedP s name && activeP s name then setActiveP s name false else s)
    s
  { s1 with pausedPlugins := [], wasMonitoringPaused := false }

/-- `SugarcaneFarm.startFarming` / `AutoFarmPlugin.startFarming` invoked
directly (for example by the `!farm` chat command), outside the
controller: sets the plugin's `isFarming` flag. -/
def startDirect (s : AutoState) (name : String) : AutoState :=
  setActiveP s name true

/-- A state reached by `pauseAll` from a configuration in which both farm
plugins are loaded and farming and monitoring is running: both plugins
stopped, both recorded, monitoring paused. -/
def bothPausedState : AutoState :=
  (pauseAll
    { sugarLoaded := true, autoLoaded := true, sugarActive := true,
      autoActive := true, monitoringOn := true, wasMonitoringPaused := false,
      pausedPlugins := [] }).1

/-- The interleaved execution that claim C7 says cannot happen: `resumeAll`
runs up to the await inside its first `startFarming` call, a `pauseAll`
executes in full at that suspension point, and the `resumeAll`
continuation then processes the remaining record entry and clears the
record.  (The record snapshot iterated by the continuation is unchanged by
the interleaved `pauseAll`, which only re-`set`s an existing key.) -/
def interleavedResumePause (s : AutoState) : AutoState :=
  let s1 := resumeStateMachineMonitoring s
  let s2 := resumeOne s1 "SugarcaneFarm"
  let s3 := (pauseAll s2).1
  let s4 := resumeOne s3 "AutoFarm"
  { s4 with pausedPlugins := [] }

end AC

namespace DS

/-- The external outcomes of one `depositToChest(chestBlock)` call
(DepositSugarcane.js lines 350-482), as observed at the function's own
decision points:
* `openFail` — the call returned `undefined` before depositing (navigation
  ended with `isFarming` cleared, or `openContainer`/`openChest` threw);
* `fullPrecheck` — the container had zero empty slots and no sugarcane
  stack with room, so the function returned `false` (lines 400-410);
* `attempts counts` — the deposit loop ran; `counts` lists the inventory
  sugarcane count observed after each `depositAllStacks` iteration (the
  oracle for the external transfer; an exhausted oracle means further
  iterations move nothing). -/
inductive ChestVisit where
  | openFail
  | fullPrecheck
  | attempts (counts : List Nat)
deriving DecidableEq, Repr

/-- JavaScript truthiness of `depositToChest`'s result: only an explicit
`true` is truthy (`undefined` and `false` are falsy). -/
def truthy : Option Bool → Bool
  | some true => true
  | _ => false

/-- The progress loop of `depositToChest` (DepositSugarcane.js lines
446-468): up to `safety < 10` iterations while sugarcane remains; an
iteration with `beforeAttempt === afterAttempt` bumps `noProgressCount`,
and two in a row end the loop with `depositedAny = false`; a changed count
resets the counter and sets `depositedAny = true`.  Returns
`(depositedAny, final count)`. -/
def depositAttempts (count : Nat) (oracle : List Nat) (fuel : Nat)
    (noProg : Nat) (depositedAny : Bool) : Bool × Nat :=
  match fuel with
  | 0 => (depositedAny, count)
  | fuel + 1 =>
    if 0 < count then
      let after := oracle.headD count
      let rest := oracle.tail
      if after = count then
        if 2 ≤ noProg + 1 then (false, count)
        else depositAttempts after rest fuel (noProg + 1) depositedAny
      else depositAttempts after rest fuel 0 true
    else (depositedAny, count)

/-- `depositToChest` (DepositSugarcane.js lines 350-482): `none` models a
`return` with no value; after the progress loop, `depositedAny` is forced
to `true` whenever the overall count strictly decreased (lines 470-474). -/
def depositToChest (count : Nat) (visit : ChestVisit) : Option Bool × Nat :=
  match visit with
  | .openFail => (none, count)
  | .fullPrecheck => (some false, count)
  | .attempts oracle =>
    let res := depositAttempts count oracle 10 0 false
    (some (if res.2 < count then true else res.1), res.2)

/-- One block position seen by `findNearestChest`'s scan of the chest
area (DepositSugarcane.js lines 244-280): its position key
`"x,y,z"`, whether its type is `chest`/`trapped_chest`/`barrel`, and the
squared Euclidean distance from the bot (minimising squared distance picks
the same block as minimising distance). -/
structure ScannedBlock where
  key : String
  isContainer : Bool
  dist2 : ℚ
deriving DecidableEq, Repr

/-- The body of `findNearestChest`'s scan loop for one position
(DepositSugarcane.js lines 261-278): a container block whose key is not
marked full replaces the best candidate when strictly closer. -/
def selectBlock (fullChests : List String) (best : Option ScannedBlock)
    (b : ScannedBlock) : Option ScannedBlock :=
  if b.isContainer && !(fullChests.contains b.key) then
    match best with
    | none => some b
    | some c => if b.dist2 < c.dist2 then some b else some c
  else best

/-- `findNearestChest(center, radius)` (DepositSugarcane.js lines 244-280)
applied to the list of blocks returned by the cube scan, in scan order:
container blocks whose position key is marked full are skipped, and among
the rest the strictly closest one found first is kept. -/
def findNearestChest (fullChests : List String)
    (scan : List ScannedBlock) : Option ScannedBlock :=
  scan.foldl (selectBlock fullChests) none

/-- `this.threshold || 64` (DepositSugarcane.js line 180): JavaScript `||`
replaces a falsy (zero) threshold by 64. -/
def thresholdOr64 (t : Nat) : Nat := if t = 0 then 64 else t

/-- State of the `DepositSugarcane` plugin instance together with the parts
of its collaborators that `monitorAndDeposit` reads and writes.  `count`
is `getSugarcaneCount()`; `fullChests` is the key list of the `fullChests`
Set; `sugarPluginActive` is `SugarcaneFarm.isFarming`; `sm` is the
StateMachine plugin's state; `cycles` is a ghost counter of deposit cycles
whose try-body actually started (for observing that a call was not
suppressed). -/
structure DState where
  isBusyDepositing : Bool
  isFarming : Bool
  memoryIsDepositing : Bool
  threshold : Nat
  count : Nat
  fullChests : List String
  lastFullChestTime : Nat
  cooldownDuration : Nat
  sugarPluginActive : Bool
  sm : SMM.SM
  cycles : Nat
deriving DecidableEq, Repr

/-- The environment's response to one iteration of the deposit loop
(DepositSugarcane.js lines 180-226):
* `externalStop` — `stopFarming()` ran during an await (the iteration then
  observes `isFarming === false` and breaks);
* `throwErr` — an exception escaped the iteration and is caught by the
  outer `catch`;
* `noChest` — `findNearestChest` returned `null`;
* `chest key visit` — a chest with position key `key` was selected and
  `depositToChest` unfolded as `visit`. -/
inductive MonitorEvent where
  | externalStop
  | throwErr
  | noChest
  | chest (key : String) (visit : ChestVisit)
deriving DecidableEq, Repr

/-- The `while (this.isFarming && this.getSugarcaneCount() >= (this.threshold
|| 64))` loop of `monitorAndDeposit` (DepositSugarcane.js lines 179-226),
driven by the environment's event list.  `att` is `noChestAttempts`;
`rand` models `Math.floor(Math.random() * 6)` (a value in `[0, 5]`); `now`
is `Date.now()` at the backoff moment.  Returns the state and whether an
exception escaped to the outer catch. -/
def runLoop (s : DState) (att : Nat) (evs : List MonitorEvent)
    (rand now : Nat) : DState × Bool :=
  match evs with
  | [] => (s, false)
  | e :: rest =>
    if s.isFarming && decide (thresholdOr64 s.threshold ≤ s.count) then
      match e with
      | .externalStop => runLoop { s with isFarming := false } att rest rand now
      | .throwErr => (s, true)
      | .noChest =>
        if 3 ≤ att + 1 then
          ({ s with fullChests := [], lastFullChestTime := now,
                    cooldownDuration := 1000 * 60 * (rand + 5) }, false)
        else runLoop s (att + 1) rest rand now
      | .chest key visit =>
        let countBefore := s.count
        let res := depositToChest s.count visit
        let s1 := { s with count := res.2 }
        if !truthy res.1 || (countBefore == res.2 && res.2 != 0) then
          runLoop { s1 with fullChests := key :: s1.fullChests } att rest rand now
        else if res.2 < countBefore then
          runLoop { s1 with lastFullChestTime := 0 } 0 rest rand now
        else runLoop s1 att rest rand now
    else (s, false)

/-- The environment of one `monitorAndDeposit` invocation: whether
`loadChestArea('sugarcane_chest_area')` finds an area, the loop events, the
random draw, and the wall clock. -/
structure DEnv where
  chestArea : Bool
  events : List MonitorEvent
  rand : Nat
  now : Nat
deriving DecidableEq, Repr

/-- The `try`/`catch`/`finally` body of `monitorAndDeposit`
(DepositSugarcane.js lines 155-241): set the busy flags, remember and pause
`SugarcaneFarm` if it was farming, force the `depositing` state, run the
deposit loop, restart `SugarcaneFarm` if it was paused and no exception
escaped, and in all cases clear the busy flags and force the state machine
back to `idle`. -/
def monitorBody (s : DState) (env : DEnv) : DState :=
  let s1 := { s with isBusyDepositing := true, isFarming := true,
                     memoryIsDepositing := true, cycles := s.cycles + 1 }
  let shouldResume := s1.sugarPluginActive
  let s2 := { s1 with sugarPluginActive := false }
  let s3 := { s2 with sm := (SMM.setState s2.sm "depositing" true).1 }
  let res := runLoop s3 0 env.events env.rand env.now
  let s5 := if res.2 then res.1
            else if shouldResume then { res.1 with sugarPluginActive := true }
            else res.1
  { s5 with isBusyDepositing := false, isFarming := false,
            memoryIsDepositing := false,
            sm := (SMM.setState s5.sm "idle" true).1 }

/-- `monitorAndDeposit(force)` (DepositSugarcane.js lines 135-242): the
re-entry guard, the cooldown-window check, the threshold check, and the
chest-area check, then the try body (`monitorBody`).  The navigation stop
and the sleeps act only on external collaborators and are elided; the
temporary `idle`/`depositing` state-machine toggles inside
`ensureInChestArea` and `depositToChest` restore the state before
returning and are elided with them. -/
def monitorAndDeposit (s : DState) (force : Bool) (env : DEnv) : DState :=
  if s.isBusyDepositing then s
  else if !force && decide (0 < s.lastFullChestTime) &&
      decide (env.now - s.lastFullChestTime < s.cooldownDuration) then s
  else if !force && decide (s.count < s.threshold) then s
  else if !env.chestArea then s
  else monitorBody s env

/-- A `DepositSugarcane` configuration at rest: default threshold, 70
carried sugarcane, no full-chest markers, no cooldown, `SugarcaneFarm`
farming. -/
def idleDeposit : DState :=
  { isBusyDepositing := false, isFarming := false, memoryIsDepositing := false,
    threshold := 64, count := 70, fullChests := [], lastFullChestTime := 0,
    cooldownDuration := 0, sugarPluginActive := true, sm := SMM.depositSM,
    cycles := 0 }

/-- `idleDeposit` in the middle of a deposit cycle (busy flags set). -/
def busyDeposit : DState :=
  { idleDeposit with isBusyDepositing := true, isFarming := true,
                     memoryIsDepositing := true, sugarPluginActive := false,
                     cycles := 1 }

/-- `idleDeposit` inside a backoff window: marked at time 1000 with a
5-minute cooldown. -/
def cooldownDeposit : DState :=
  { idleDeposit with lastFullChestTime := 1000, cooldownDuration := 300000 }

/-- The deposit cycle used by the C5 counterexample: 130 carried sugarcane,
and a chest visit whose first attempt deposits 10 items and whose next two
attempts make no progress. -/
def c5Visit : ChestVisit := ChestVisit.attempts [120, 120, 120]

/-- The state produced by the exhaustion-backoff branch
(DepositSugarcane.js lines 189-197): full-chest memory cleared, backoff
start stamped, cooldown set to `(rand + 5)` minutes. -/
def backoffResult (s : DState) (rand now : Nat) : DState :=
  { s with fullChests := [], lastFullChestTime := now,
           cooldownDuration := 1000 * 60 * (rand + 5) }

end DS

namespace SMM

theorem addToHistory_maxHistorySize (sm : SM) (st : String) (ts : Nat) :
    (addToHistory sm st ts).maxHistorySize = sm.maxHistorySize := by
  simp [addToHistory]

theorem addToHistory_len (sm : SM) (st : String) (ts : Nat)
    (h : sm.stateHistory.length ≤ sm.maxHistorySize) :
    (addToHistory sm st ts).stateHistory.length ≤ sm.maxHistorySize := by
  simp only [addToHistory]
  split
  · simp only [List.length_drop, List.length_append, List.length_cons,
      List.length_nil]
    omega
  · rename_i hlt
    simp only [List.length_append, List.length_cons, List.length_nil] at *
    omega

theorem recordAll_maxHistorySize (sm : SM) (evs : List (String × Nat)) :
    (recordAll sm evs).maxHistorySize = sm.maxHistorySize := by
  induction evs generalizing sm with
  | nil => rfl
  | cons e rest ih =>
    simpa [recordAll, addToHistory_maxHistorySize] using
      ih (addToHistory sm e.1 e.2)

theorem recordAll_len (sm : SM) (evs : List (String × Nat))
    (h : sm.stateHistory.length ≤ sm.maxHistorySize) :
    (recordAll sm evs).stateHistory.length ≤ sm.maxHistorySize := by
  induction evs generalizing sm with
  | nil => exact h
  | cons e rest ih =>
    have h1 := addToHistory_len sm e.1 e.2 h
    have h2 := addToHistory_maxHistorySize sm e.1 e.2
    have := ih (addToHistory sm e.1 e.2) (by omega)
    simpa [recordAll, h2] using this

end SMM

namespace DS

theorem runLoop_cycles (evs : List MonitorEvent) (s : DState) (att rand now : Nat) :
    (runLoop s att evs rand now).1.cycles = s.cycles := by
  induction evs generalizing s att with
  | nil => rfl
  | cons e rest ih =>
    by_cases hg : (s.isFarming && decide (thresholdOr64 s.threshold ≤ s.count)) = true
    · cases e with
      | externalStop => simpa [runLoop, hg] using ih _ _
      | throwErr => simp [runLoop, hg]
      | noChest =>
        by_cases h3 : 3 ≤ att + 1
        · simp [runLoop, hg, h3]
        · simpa [runLoop, hg, h3] using ih _ _
      | chest key visit =>
        simp only [runLoop, hg, if_true]
        split
        · exact ih _ _
        · split
          · exact ih _ _
          · exact ih _ _
    · simp [runLoop, hg]

theorem setState_force_current (sm : SMM.SM) (n : String) :
    ((SMM.setState sm n true).1).currentStateName = n := by
  unfold SMM.setState
  by_cases hreg : sm.behaviors.contains n = true
  · rw [if_pos hreg]
    by_cases hcur : sm.currentStateName = n
    · simp [hcur]
    · simp [hcur]
  · rw [if_neg hreg]
    by_cases hcur : sm.currentStateName = n
    · simp [hcur]
    · simp [hcur]

theorem monitorBody_cycles (s : DState) (env : DEnv) :
    (monitorBody s env).cycles = s.cycles + 1 := by
  unfold monitorBody
  dsimp only
  split
  · exact runLoop_cycles _ _ _ _ _
  · split
    · exact runLoop_cycles _ _ _ _ _
    · exact runLoop_cycles _ _ _ _ _

theorem monitorBody_clean (s : DState) (env : DEnv) :
    (monitorBody s env).isBusyDepositing = false ∧
    (monitorBody s env).memoryIsDepositing = false ∧
    (monitorBody s env).sm.currentStateName = "idle" :=
  ⟨rfl, rfl, setState_force_current _ _⟩

theorem thresholdOr64_pos (t : Nat) : 1 ≤ thresholdOr64 t := by
  unfold thresholdOr64
  split <;> omega

/-- Two zero-progress iterations at the start of the deposit loop end it
with `depositedAny = false` and the count unchanged. -/
theorem depositAttempts_two_stalls (c : Nat) (tl : List Nat) (hc : 0 < c) :
    depositAttempts c (c :: c :: tl) 10 0 false = (false, c) := by
  simp [depositAttempts, hc]

theorem depositToChest_two_stalls (c : Nat) (tl : List Nat) (hc : 0 < c) :
    depositToChest c (ChestVisit.attempts (c :: c :: tl)) = (some false, c) := by
  simp [depositToChest, depositAttempts_two_stalls c tl hc]

theorem selectBlock_mem (full : List String) (best : Option ScannedBlock)
    (b c : ScannedBlock)
    (hbest : ∀ x, best = some x → full.contains x.key = false)
    (h : selectBlock full best b = some c) :
    full.contains c.key = false := by
  by_cases hcond : (b.isContainer && !(full.contains b.key)) = true
  · have hkey : full.contains b.key = false := by
      simp only [Bool.and_eq_true, Bool.not_eq_true'] at hcond
      exact hcond.2
    rcases best with _ | c0
    · have hsel : selectBlock full none b = some b := by
        unfold selectBlock
        rw [if_pos hcond]
      rw [hsel] at h
      obtain rfl := Option.some.inj h
      exact hkey
    · by_cases hd : b.dist2 < c0.dist2
      · have hsel : selectBlock full (some c0) b = some b := by
          unfold selectBlock
          rw [if_pos hcond]
          show (if b.dist2 < c0.dist2 then some b else some c0) = some b
          exact if_pos hd
        rw [hsel] at h
        obtain rfl := Option.some.inj h
        exact hkey
      · have hsel : selectBlock full (some c0) b = some c0 := by
          unfold selectBlock
          rw [if_pos hcond]
          show (if b.dist2 < c0.dist2 then some b else some c0) = some c0
          exact if_neg hd
        rw [hsel] at h
        obtain rfl := Option.some.inj h
        exact hbest c0 rfl
  · have hsel : selectBlock full best b = best := by
      unfold selectBlock
      rw [if_neg hcond]
    rw [hsel] at h
    exact hbest c h

theorem findNearestChest_excludes_aux (full : List String)
    (scan : List ScannedBlock) (best : Option ScannedBlock)
    (hbest : ∀ x, best = some x → full.contains x.key = false) :
    ∀ b, scan.foldl (selectBlock full) best = some b →
      full.contains b.key = false := by
  induction scan generalizing best with
  | nil => exact hbest
  | cons hd tl ih =>
    intro b h
    exact ih (selectBlock full best hd)
      (fun x hx => selectBlock_mem full best hd x hbest hx) b h

end DS

/-- C1 counterexample: in the machine that `DepositSugarcane.load` sets up,
`setState("depositing")` without force returns success although the only
`idle → depositing` edge has a guard that currently evaluates to `false` —
so success is not equivalent to the existence of a guard-true edge, and the
claim as stated is false. -/
theorem c1_counterexample :
    (SMM.setState SMM.depositSM "depositing" false).2 = true ∧
    ¬ SMM.guardTrueEdge SMM.depositSM "depositing" := by
  decide

/-- C1 (amended): for every registered target name, `setState(target)` with
`force = false` returns success iff the target is already current or a
transition edge `(current, target)` exists — the guard is not evaluated —
and when it returns failure the current state name is left unchanged. -/
theorem c1_setState_success_iff_edge (sm : SMM.SM) (target : String)
    (hreg : sm.behaviors.contains target = true) :
    ((SMM.setState sm target false).2 = true ↔
      SMM.succeedsWithoutForce sm target) ∧
    ((SMM.setState sm target false).2 = false →
      (SMM.setState sm target false).1.currentStateName = sm.currentStateName) := by
  unfold SMM.setState SMM.succeedsWithoutForce
  rw [if_pos hreg]
  by_cases h1 : sm.currentStateName = target
  · simp [h1]
  · by_cases h2 : SMM.canTransitionTo sm target = true <;> simp [h1, h2]

/-- Witness for `c1_setState_success_iff_edge` at the deposit machine and
target `"depositing"`. -/
theorem c1_setState_success_iff_edge_witness :
    ((SMM.setState SMM.depositSM "depositing" false).2 = true ↔
      SMM.succeedsWithoutForce SMM.depositSM "depositing") ∧
    ((SMM.setState SMM.depositSM "depositing" false).2 = false →
      (SMM.setState SMM.depositSM "depositing" false).1.currentStateName =
        SMM.depositSM.currentStateName) :=
  c1_setState_success_iff_edge SMM.depositSM "depositing" (by decide)

/-- C8 counterexample: with the default `maxHistorySize = 50`, after one
recorded transition `getHistory(0)` returns that entry (JavaScript
`slice(-0)` is `slice(0)`, the whole array), exceeding
`min(0, maxHistorySize) = 0` — so the bound fails at `n = 0`. -/
theorem c8_counterexample :
    ¬ (SMM.getHistory (SMM.addToHistory SMM.depositSM "depositing" 5) 0).length ≤
      min 0 (SMM.addToHistory SMM.depositSM "depositing" 5).maxHistorySize := by
  decide

/-- C8 (amended): for every `n ≥ 1` and every sequence of recorded
transitions applied to a state whose history is within bounds,
`getHistory n` returns at most `min n maxHistorySize` entries and is a
suffix of the stored history (hence most-recent last), and the stored
history never exceeds `maxHistorySize` entries.  For `n = 0`, however,
`getHistory` returns the entire stored history (`slice(-0)` = `slice(0)`),
so the `min` bound only holds from `n = 1` up. -/
theorem c8_history_bounds (sm : SMM.SM) (evs : List (String × Nat)) (n : Nat)
    (hinv : sm.stateHistory.length ≤ sm.maxHistorySize) (hn : 1 ≤ n) :
    (SMM.recordAll sm evs).stateHistory.length ≤ sm.maxHistorySize ∧
    (SMM.getHistory (SMM.recordAll sm evs) n).length ≤ min n sm.maxHistorySize ∧
    (SMM.getHistory (SMM.recordAll sm evs) n) <:+
      (SMM.recordAll sm evs).stateHistory := by
  have hlen := SMM.recordAll_len sm evs hinv
  refine ⟨hlen, ?_, ?_⟩
  · have hn0 : n ≠ 0 := by omega
    simp only [SMM.getHistory, hn0, if_false, List.length_drop]
    omega
  · have hn0 : n ≠ 0 := by omega
    simp only [SMM.getHistory, hn0, if_false]
    exact List.drop_suffix _ _

/-- Witness for `c8_history_bounds`: two transitions recorded on the
deposit machine, queried with `n = 1`. -/
theorem c8_history_bounds_witness :
    (SMM.recordAll SMM.depositSM [("depositing", 5), ("idle", 9)]).stateHistory.length ≤
      SMM.depositSM.maxHistorySize ∧
    (SMM.getHistory (SMM.recordAll SMM.depositSM [("depositing", 5), ("idle", 9)]) 1).length ≤
      min 1 SMM.depositSM.maxHistorySize ∧
    (SMM.getHistory (SMM.recordAll SMM.depositSM [("depositing", 5), ("idle", 9)]) 1) <:+
      (SMM.recordAll SMM.depositSM [("depositing", 5), ("idle", 9)]).stateHistory :=
  c8_history_bounds SMM.depositSM [("depositing", 5), ("idle", 9)] 1
    (by decide) (by decide)

/-- C3 counterexample: damage at t=0, the fallback fires at t=150 and
retaliates against the nearest attacker, and the bloodhound correlation
arrives afterwards identifying that same attacker — the correlation handler
retaliates again, so `attackEntity` runs twice for one damage event,
contradicting the claimed mutual exclusion. -/
theorem c3_counterexample :
    (CM.runCombat
      { retaliationEnabled := true, pendingHurtTime := none,
        bloodhoundHandled := false, isInCombat := false,
        currentTarget := none, attackLog := [] }
      [CM.CombatEvent.hurt 0,
       CM.CombatEvent.timer (some ⟨7, false, (3 : ℚ)⟩),
       CM.CombatEvent.correlate ⟨7, false, (3 : ℚ)⟩ true]).attackLog = [7, 7] := by
  decide

/-- C3 (amended): if the correlation signal arrives before the 150 ms
fallback deadline, exactly one retaliation occurs, against the
correlation's attacker, and the fallback is suppressed; but a correlation
signal arriving after the fallback has already fired triggers a second
retaliation (the code suppresses only the fallback direction, not the
reverse). -/
theorem c3_retaliation_race (s : CM.CombatRace) (t : Nat) (a : CM.Entity)
    (nearest : Option CM.Entity)
    (hen : s.retaliationEnabled = true)
    (htg : s.currentTarget = none) :
    (CM.runCombat s
        [CM.CombatEvent.hurt t, CM.CombatEvent.correlate a true,
         CM.CombatEvent.timer nearest]).attackLog = s.attackLog ++ [a.eid] ∧
    (CM.runCombat s
        [CM.CombatEvent.hurt t, CM.CombatEvent.timer (some a),
         CM.CombatEvent.correlate a true]).attackLog =
      s.attackLog ++ [a.eid, a.eid] := by
  constructor
  · simp [CM.runCombat, CM.onEntityHurt, CM.onCorrelateAttack, CM.timerFire,
      CM.retaliate, CM.attackEntity, hen, htg]
  · simp [CM.runCombat, CM.onEntityHurt, CM.onCorrelateAttack, CM.timerFire,
      CM.fallbackRetaliate, CM.retaliate, CM.attackEntity, hen, htg]

/-- Witness for `c3_retaliation_race` at a concrete initial state and
attacker. -/
theorem c3_retaliation_race_witness :
    (CM.runCombat
        { retaliationEnabled := true, pendingHurtTime := none,
          bloodhoundHandled := false, isInCombat := false,
          currentTarget := none, attackLog := [] }
        [CM.CombatEvent.hurt 0, CM.CombatEvent.correlate ⟨9, true, (2 : ℚ)⟩ true,
         CM.CombatEvent.timer none]).attackLog = [] ++ [9] ∧
    (CM.runCombat
        { retaliationEnabled := true, pendingHurtTime := none,
          bloodhoundHandled := false, isInCombat := false,
          currentTarget := none, attackLog := [] }
        [CM.CombatEvent.hurt 0, CM.CombatEvent.timer (some ⟨9, true, (2 : ℚ)⟩),
         CM.CombatEvent.correlate ⟨9, true, (2 : ℚ)⟩ true]).attackLog =
      [] ++ [9, 9] :=
  c3_retaliation_race _ 0 ⟨9, true, (2 : ℚ)⟩ none rfl rfl

/-- C4 (confirmed): over any sequence of ticks whose measured distances all
lie strictly within `(attackRange, attackRange + buffer] = (6, 8]`, with
the ranged-capability inputs unchanged (in particular still granting the
capability whenever the mode is currently ranged, as it was when ranged was
entered), `updateCombatMode` leaves the combat mode unchanged — no flip
between melee and ranged ever occurs in the hysteresis band. -/
theorem c4_hysteresis_no_flip (mode : CM.CombatMode) (useLongRange hasBow : Bool)
    (ds : List ℚ)
    (hds : ∀ d ∈ ds, CM.attackRange < d ∧ d ≤ CM.attackRange + CM.hysteresisBuffer)
    (hcap : mode = CM.CombatMode.ranged → useLongRange = true ∧ hasBow = true) :
    CM.runTicks mode useLongRange hasBow ds = mode := by
  induction ds with
  | nil => rfl
  | cons d rest ih =>
    have hd := hds d (List.mem_cons_self d rest)
    have hstep : CM.updateCombatMode mode d useLongRange hasBow = mode := by
      cases mode with
      | melee =>
        have : ¬ CM.attackRange + CM.hysteresisBuffer < d := not_lt.mpr hd.2
        simp [CM.updateCombatMode, this]
      | ranged =>
        obtain ⟨hu, hb⟩ := hcap rfl
        have : ¬ d ≤ CM.attackRange := not_le.mpr hd.1
        simp [CM.updateCombatMode, this, hu, hb]
    have : CM.runTicks mode useLongRange hasBow (d :: rest) =
        CM.runTicks (CM.updateCombatMode mode d useLongRange hasBow)
          useLongRange hasBow rest := rfl
    rw [this, hstep]
    exact ih fun x hx => hds x (List.mem_cons_of_mem d hx)

/-- Witness for `c4_hysteresis_no_flip`: ranged mode with bow available,
distance oscillating 7, 8, 13/2 inside `(6, 8]`. -/
theorem c4_hysteresis_no_flip_witness :
    CM.runTicks CM.CombatMode.ranged true true [(7 : ℚ), 8, 13/2] =
      CM.CombatMode.ranged :=
  c4_hysteresis_no_flip CM.CombatMode.ranged true true [(7 : ℚ), 8, 13/2]
    (by
      intro d hd
      constructor <;>
      · fin_cases hd <;> norm_num [CM.attackRange, CM.hysteresisBuffer])
    (fun _ => ⟨rfl, rfl⟩)

/-- C2 counterexample: a reachable trace with a stale paused-record.  Both
farm plugins are loaded; SugarcaneFarm is farming.  `pauseAll` records and
stops it.  AutoFarm is then started directly (for example via `!farm`), and
a second `pauseAll` runs: it pauses only AutoFarm, yet the record still
holds SugarcaneFarm from the first, never-resumed pause.  `resumeAll` then
restarts SugarcaneFarm as well — a task that was not active immediately
before the most recent `pauseAll` and was not recorded by it — so the
active set after resume differs from the set before the pause. -/
theorem c2_counterexample :
    ((AC.pauseAll (AC.startDirect
        (AC.pauseAll
          { sugarLoaded := true, autoLoaded := true, sugarActive := true,
            autoActive := false, monitoringOn := true,
            wasMonitoringPaused := false, pausedPlugins := [] }).1
        "AutoFarm")).2 = ["AutoFarm"]) ∧
    ((AC.startDirect
        (AC.pauseAll
          { sugarLoaded := true, autoLoaded := true, sugarActive := true,
            autoActive := false, monitoringOn := true,
            wasMonitoringPaused := false, pausedPlugins := [] }).1
        "AutoFarm").sugarActive = false) ∧
    ((AC.resumeAll (AC.pauseAll (AC.startDirect
        (AC.pauseAll
          { sugarLoaded := true, autoLoaded := true, sugarActive := true,
            autoActive := false, monitoringOn := true,
            wasMonitoringPaused := false, pausedPlugins := [] }).1
        "AutoFarm")).1).sugarActive = true) := by
  decide

/-- C2 (amended): provided the paused-record is empty when `pauseAll` is
invoked (no earlier pause is still outstanding), `pauseAll` followed by
`resumeAll` leaves each managed task's active flag as it was immediately
before `pauseAll`; `pauseAll` returns exactly the names of the loaded
managed tasks that were active; and `resumeAll` clears the record.  With a
non-empty record, `resumeAll` instead restarts the union of everything
recorded since the last resume/stop. -/
theorem c2_pause_resume_round_trip (s : AC.AutoState)
    (hrec : s.pausedPlugins = []) :
    ((AC.resumeAll (AC.pauseAll s).1).sugarActive = s.sugarActive ∧
     (AC.resumeAll (AC.pauseAll s).1).autoActive = s.autoActive) ∧
    (AC.pauseAll s).2 =
      AC.automationPlugins.filter (fun n => AC.loadedP s n && AC.activeP s n) ∧
    (AC.resumeAll (AC.pauseAll s).1).pausedPlugins = [] := by
  obtain ⟨sl, al, sa, aa, mo, wp, pp⟩ := s
  simp only at hrec
  subst hrec
  revert sl al sa aa mo wp
  decide

/-- Witness for `c2_pause_resume_round_trip` at a concrete state with
SugarcaneFarm active and AutoFarm stopped. -/
theorem c2_pause_resume_round_trip_witness :
    ((AC.resumeAll (AC.pauseAll
        { sugarLoaded := true, autoLoaded := true, sugarActive := true,
          autoActive := false, monitoringOn := true,
          wasMonitoringPaused := false, pausedPlugins := [] }).1).sugarActive =
        true ∧
     (AC.resumeAll (AC.pauseAll
        { sugarLoaded := true, autoLoaded := true, sugarActive := true,
          autoActive := false, monitoringOn := true,
          wasMonitoringPaused := false, pausedPlugins := [] }).1).autoActive =
        false) ∧
    (AC.pauseAll
        { sugarLoaded := true, autoLoaded := true, sugarActive := true,
          autoActive := false, monitoringOn := true,
          wasMonitoringPaused := false, pausedPlugins := [] }).2 =
      AC.automationPlugins.filter
        (fun n => AC.loadedP
            { sugarLoaded := true, autoLoaded := true, sugarActive := true,
              autoActive := false, monitoringOn := true,
              wasMonitoringPaused := false, pausedPlugins := [] } n &&
          AC.activeP
            { sugarLoaded := true, autoLoaded := true, sugarActive := true,
              autoActive := false, monitoringOn := true,
              wasMonitoringPaused := false, pausedPlugins := [] } n) ∧
    (AC.resumeAll (AC.pauseAll
        { sugarLoaded := true, autoLoaded := true, sugarActive := true,
          autoActive := false, monitoringOn := true,
          wasMonitoringPaused := false, pausedPlugins := [] }).1).pausedPlugins =
      [] :=
  c2_pause_resume_round_trip _ rfl

/-- C7 counterexample: `AutomationControl` has no busy flag (its
constructor state is only `pausedPlugins`, `wasMonitoringPaused`,
`savedMonitoringInterval`), so a `pauseAll` invoked at the await point
inside a running `resumeAll` is neither rejected nor queued: starting from
the reachable state in which both farm plugins were paused, the interleaved
execution reaches a final state (SugarcaneFarm stopped, AutoFarm farming)
that differs from both serializations (pause-then-resume and
resume-then-pause), and the mid-resume `pauseAll` does real work — it stops
and returns the task the resume had just started. -/
theorem c7_counterexample :
    (((AC.interleavedResumePause AC.bothPausedState).sugarActive,
      (AC.interleavedResumePause AC.bothPausedState).autoActive) ≠
      ((AC.resumeAll (AC.pauseAll AC.bothPausedState).1).sugarActive,
       (AC.resumeAll (AC.pauseAll AC.bothPausedState).1).autoActive)) ∧
    (((AC.interleavedResumePause AC.bothPausedState).sugarActive,
      (AC.interleavedResumePause AC.bothPausedState).autoActive) ≠
      ((AC.pauseAll (AC.resumeAll AC.bothPausedState)).1.sugarActive,
       (AC.pauseAll (AC.resumeAll AC.bothPausedState)).1.autoActive)) ∧
    (AC.pauseAll (AC.resumeOne
        (AC.resumeStateMachineMonitoring AC.bothPausedState)
        "SugarcaneFarm")).2 = ["SugarcaneFarm"] := by
  decide

/-- C7 (amended): `AutomationControl` carries no busy flag and does not
guard against re-entrancy.  From any state with both farm plugins loaded
and stopped and both recorded as paused, a `pauseAll` interleaved at the
await point inside `resumeAll` executes immediately (returning the
just-resumed SugarcaneFarm, so it is not rejected and not queued), and the
interleaved run ends with SugarcaneFarm stopped, AutoFarm farming, and the
paused-record cleared — exactly the lost-task hazard the spec warns the
guard should prevent. -/
theorem c7_no_reentrancy_guard (s : AC.AutoState)
    (hsl : s.sugarLoaded = true) (hal : s.autoLoaded = true)
    (hsa : s.sugarActive = false) (haa : s.autoActive = false)
    (hrec : s.pausedPlugins = ["SugarcaneFarm", "AutoFarm"]) :
    (AC.pauseAll (AC.resumeOne
        (AC.resumeStateMachineMonitoring s) "SugarcaneFarm")).2 =
      ["SugarcaneFarm"] ∧
    (AC.interleavedResumePause s).sugarActive = false ∧
    (AC.interleavedResumePause s).autoActive = true ∧
    (AC.interleavedResumePause s).pausedPlugins = [] := by
  obtain ⟨sl, al, sa, aa, mo, wp, pp⟩ := s
  simp only at hsl hal hsa haa hrec
  subst hsl hal hsa haa hrec
  revert mo wp
  decide

/-- Witness for `c7_no_reentrancy_guard` at the reachable both-paused
state. -/
theorem c7_no_reentrancy_guard_witness :
    (AC.pauseAll (AC.resumeOne
        (AC.resumeStateMachineMonitoring AC.bothPausedState)
        "SugarcaneFarm")).2 = ["SugarcaneFarm"] ∧
    (AC.interleavedResumePause AC.bothPausedState).sugarActive = false ∧
    (AC.interleavedResumePause AC.bothPausedState).autoActive = true ∧
    (AC.interleavedResumePause AC.bothPausedState).pausedPlugins = [] :=
  c7_no_reentrancy_guard AC.bothPausedState rfl rfl rfl rfl rfl

/-- C10 (confirmed): `monitorAndDeposit` invoked while `isBusyDepositing`
is `true` returns immediately with no state change, even with
`force = true` — so a forced `!deposit now` (which `handleChat` forwards as
`monitorAndDeposit(true)`) issued during an active deposit cycle is a
silent no-op rather than a queued or re-entrant run. -/
theorem c10_busy_guard (s : DS.DState) (force : Bool) (env : DS.DEnv)
    (hbusy : s.isBusyDepositing = true) :
    DS.monitorAndDeposit s force env = s := by
  unfold DS.monitorAndDeposit
  rw [if_pos hbusy]

/-- Witness for `c10_busy_guard`: a forced invocation during a busy cycle. -/
theorem c10_busy_guard_witness :
    DS.monitorAndDeposit DS.busyDeposit true ⟨true, [], 0, 0⟩ =
      DS.busyDeposit :=
  c10_busy_guard DS.busyDeposit true ⟨true, [], 0, 0⟩ rfl

/-- C9 (confirmed): every cycle of `monitorAndDeposit` that passes the
entry guards (and therefore sets `isBusyDepositing`) ends — normally, by
breaking out of the loop, after an external stop, or after a thrown error
(`MonitorEvent.throwErr`) — with `isBusyDepositing` and
`bot.memory.isDepositing` cleared and the state machine forced back to
`idle`: the `finally` block releases the busy flags on every exit path. -/
theorem c9_busy_release (s : DS.DState) (force : Bool) (env : DS.DEnv)
    (hbusy : s.isBusyDepositing = false)
    (hcool : force = true ∨
      ¬(0 < s.lastFullChestTime ∧
        env.now - s.lastFullChestTime < s.cooldownDuration))
    (hthr : force = true ∨ s.threshold ≤ s.count)
    (harea : env.chestArea = true) :
    (DS.monitorAndDeposit s force env).isBusyDepositing = false ∧
    (DS.monitorAndDeposit s force env).memoryIsDepositing = false ∧
    (DS.monitorAndDeposit s force env).sm.currentStateName = "idle" := by
  have h2 : (!force && decide (0 < s.lastFullChestTime) &&
      decide (env.now - s.lastFullChestTime < s.cooldownDuration)) = false := by
    rcases hcool with h | h
    · subst h; simp
    · cases force with
      | false =>
        by_cases hA : 0 < s.lastFullChestTime
        · by_cases hB : env.now - s.lastFullChestTime < s.cooldownDuration
          · exact absurd ⟨hA, hB⟩ h
          · simp [hB]
        · simp [hA]
      | true => simp
  have h3 : (!force && decide (s.count < s.threshold)) = false := by
    rcases hthr with h | h
    · subst h; simp
    · cases force with
      | false => simp [not_lt.mpr h]
      | true => simp
  unfold DS.monitorAndDeposit
  rw [if_neg (by simp [hbusy]), if_neg (by simp [h2]), if_neg (by simp [h3]),
    if_neg (by simp [harea])]
  exact DS.monitorBody_clean s env

/-- Witness for `c9_busy_release`: a cycle whose loop throws an exception
still ends clean. -/
theorem c9_busy_release_witness :
    (DS.monitorAndDeposit DS.idleDeposit false
      ⟨true, [DS.MonitorEvent.throwErr], 0, 0⟩).isBusyDepositing = false ∧
    (DS.monitorAndDeposit DS.idleDeposit false
      ⟨true, [DS.MonitorEvent.throwErr], 0, 0⟩).memoryIsDepositing = false ∧
    (DS.monitorAndDeposit DS.idleDeposit false
      ⟨true, [DS.MonitorEvent.throwErr], 0, 0⟩).sm.currentStateName = "idle" :=
  c9_busy_release DS.idleDeposit false ⟨true, [DS.MonitorEvent.throwErr], 0, 0⟩
    rfl (Or.inr (by decide)) (Or.inr (by decide)) rfl

/-- C6 (confirmed): (a) three consecutive `findNearestChest`-returned-null
iterations at the start of a deposit cycle clear the full-chest memory and
enter a cooldown of `(rand + 5)` minutes — between 5 and 10 minutes for
any random draw `rand ≤ 5` (modelling `Math.floor(Math.random()*6)`) —
ending the loop regardless of the remaining trace; (b) while the cooldown
window is open, `monitorAndDeposit` without force returns immediately and
unchanged even though the carried count meets the threshold; (c) a forced
invocation bypasses the cooldown and still runs the deposit cycle (the
ghost cycle counter advances). -/
theorem c6_exhaustion_backoff (s1 : DS.DState) (rest : List DS.MonitorEvent)
    (rand now : Nat)
    (hfarm : s1.isFarming = true)
    (hcnt : DS.thresholdOr64 s1.threshold ≤ s1.count)
    (hrand : rand ≤ 5)
    (s2 : DS.DState) (env2 : DS.DEnv)
    (hbusy2 : s2.isBusyDepositing = false)
    (hlast2 : 0 < s2.lastFullChestTime)
    (hwin2 : env2.now - s2.lastFullChestTime < s2.cooldownDuration)
    (hthr2 : s2.threshold ≤ s2.count)
    (s3 : DS.DState) (env3 : DS.DEnv)
    (hbusy3 : s3.isBusyDepositing = false)
    (harea3 : env3.chestArea = true) :
    (DS.runLoop s1 0 (DS.MonitorEvent.noChest :: DS.MonitorEvent.noChest ::
        DS.MonitorEvent.noChest :: rest) rand now =
      (DS.backoffResult s1 rand now, false) ∧
     5 * 60 * 1000 ≤ 1000 * 60 * (rand + 5) ∧
     1000 * 60 * (rand + 5) ≤ 10 * 60 * 1000) ∧
    DS.monitorAndDeposit s2 false env2 = s2 ∧
    (DS.monitorAndDeposit s3 true env3).cycles = s3.cycles + 1 := by
  refine ⟨⟨?_, by omega, by omega⟩, ?_, ?_⟩
  · have hg : (s1.isFarming &&
        decide (DS.thresholdOr64 s1.threshold ≤ s1.count)) = true := by
      simp [hfarm, hcnt]
    simp [DS.runLoop, hg, DS.backoffResult]
  · unfold DS.monitorAndDeposit
    rw [if_neg (by simp [hbusy2])]
    rw [if_pos (by simp [hlast2, hwin2])]
  · unfold DS.monitorAndDeposit
    rw [if_neg (by simp [hbusy3]), if_neg (by simp), if_neg (by simp),
      if_neg (by simp [harea3])]
    exact DS.monitorBody_cycles s3 env3

/-- Witness for `c6_exhaustion_backoff`: an in-cycle trace of three
no-chest outcomes with random draw 0, a cooldown state probed at time
1500, and a forced run during that cooldown. -/
theorem c6_exhaustion_backoff_witness :
    (DS.runLoop DS.busyDeposit 0 (DS.MonitorEvent.noChest ::
        DS.MonitorEvent.noChest :: DS.MonitorEvent.noChest :: []) 0 42 =
      (DS.backoffResult DS.busyDeposit 0 42, false) ∧
     5 * 60 * 1000 ≤ 1000 * 60 * (0 + 5) ∧
     1000 * 60 * (0 + 5) ≤ 10 * 60 * 1000) ∧
    DS.monitorAndDeposit DS.cooldownDeposit false ⟨true, [], 0, 1500⟩ =
      DS.cooldownDeposit ∧
    (DS.monitorAndDeposit DS.cooldownDeposit true
      ⟨true, [], 0, 1500⟩).cycles = DS.cooldownDeposit.cycles + 1 :=
  c6_exhaustion_backoff DS.busyDeposit [] 0 42 rfl (by decide) (by decide)
    DS.cooldownDeposit ⟨true, [], 0, 1500⟩ rfl (by decide) (by decide) (by decide)
    DS.cooldownDeposit ⟨true, [], 0, 1500⟩ rfl rfl

/-- C5 counterexample: a deposit visit with 130 carried sugarcane whose
first attempt deposits 10 items and whose second and third attempts make
zero net progress.  The progress loop exits via the two-consecutive-
no-progress branch, but `depositToChest` then reports success because the
overall count decreased, so the chest is NOT marked full — two consecutive
zero-progress transfer attempts against the same chest did not mark it,
contradicting the claim. -/
theorem c5_counterexample :
    DS.depositToChest 130 DS.c5Visit = (some true, 120) ∧
    (DS.runLoop { DS.busyDeposit with count := 130 } 0
        [DS.MonitorEvent.chest "10,64,10" DS.c5Visit] 0 0).1.fullChests = [] := by
  decide

/-- C5 (amended): a chest is marked full when its whole visit makes no
net progress: two consecutive zero-progress attempts with no earlier
progress in the same visit end `depositToChest` with result `false` and
unchanged count, and the loop iteration then adds the chest's position key
to `fullChests` (two consecutive zero-progress attempts after earlier
progress in the same visit do not mark it, per the counterexample); and
`findNearestChest` never returns a block whose position key is marked
full, until the markers are cleared (by the 2-minute reset interval or the
exhaustion backoff). -/
theorem c5_full_sink_marking (s : DS.DState) (key : String) (tl : List Nat)
    (rest : List DS.MonitorEvent) (att rand now : Nat)
    (hfarm : s.isFarming = true)
    (hcnt : DS.thresholdOr64 s.threshold ≤ s.count)
    (full : List String) (scan : List DS.ScannedBlock) (b : DS.ScannedBlock)
    (hfind : DS.findNearestChest full scan = some b) :
    DS.depositToChest s.count
        (DS.ChestVisit.attempts (s.count :: s.count :: tl)) =
      (some false, s.count) ∧
    DS.runLoop s att (DS.MonitorEvent.chest key
        (DS.ChestVisit.attempts (s.count :: s.count :: tl)) :: rest) rand now =
      DS.runLoop { s with fullChests := key :: s.fullChests } att rest rand now ∧
    full.contains b.key = false := by
  have hc : 0 < s.count := by
    have := DS.thresholdOr64_pos s.threshold
    omega
  have hdep := DS.depositToChest_two_stalls s.count tl hc
  refine ⟨hdep, ?_, ?_⟩
  · have hg : (s.isFarming &&
        decide (DS.thresholdOr64 s.threshold ≤ s.count)) = true := by
      simp [hfarm, hcnt]
    simp [DS.runLoop, hg, hdep, DS.truthy]
  · exact DS.findNearestChest_excludes_aux full scan none
      (fun x hx => nomatch hx) b hfind

/-- Witness for `c5_full_sink_marking`: a visit that stalls twice from the
start at 70 carried sugarcane, and a scan in which the only unmarked
container is returned. -/
theorem c5_full_sink_marking_witness :
    DS.depositToChest DS.busyDeposit.count
        (DS.ChestVisit.attempts (DS.busyDeposit.count ::
          DS.busyDeposit.count :: [])) =
      (some false, DS.busyDeposit.count) ∧
    DS.runLoop DS.busyDeposit 0 (DS.MonitorEvent.chest "1,2,3"
        (DS.ChestVisit.attempts (DS.busyDeposit.count ::
          DS.busyDeposit.count :: [])) :: []) 0 0 =
      DS.runLoop { DS.busyDeposit with
        fullChests := "1,2,3" :: DS.busyDeposit.fullChests } 0 [] 0 0 ∧
    ["1,2,3"].contains (DS.ScannedBlock.mk "4,5,6" true 0).key = false :=
  c5_full_sink_marking DS.busyDeposit "1,2,3" [] [] 0 0 0 rfl (by decide)
    ["1,2,3"] [⟨"1,2,3", true, 1⟩, ⟨"4,5,6", true, 0⟩] ⟨"4,5,6", true, 0⟩
    (by decide)

